/-
Verification of the example code in `docs/guides/developer/pythia_policies.ipynb`
and of the repository `Dockerfile`, as a shallow embedding in Lean 4.

Python exceptions are modelled with `Except PyError`; Python `dict` is
modelled as an association list whose assignment replaces an existing key
in place and otherwise appends, which matches CPython lookup/insertion
semantics.  Machine integers are `Int` (Python ints are unbounded), and
`a % b` on `Int` in Lean (`Int.emod`) agrees with Python `%` for positive
`b` (result in `[0, b)`); `b = 0` is modelled as `ZeroDivisionError`,
as in Python.
-/
import Mathlib

namespace Vizier

/-- Python exceptions raised by the notebook code. -/
inductive PyError where
  | valueError (msg : String)
  | zeroDivisionError
  | keyError (key : String)
  deriving Repr, DecidableEq

instance {ε α : Type} [DecidableEq ε] [DecidableEq α] : DecidableEq (Except ε α) :=
  fun x y =>
    match x, y with
    | .ok a, .ok b => if h : a = b then isTrue (by rw [h]) else isFalse (by simp [h])
    | .error a, .error b => if h : a = b then isTrue (by rw [h]) else isFalse (by simp [h])
    | .ok _, .error _ => isFalse (by simp)
    | .error _, .ok _ => isFalse (by simp)

/-- `vz.ParameterConfig.type` values (only CATEGORICAL matters to the examples;
the other constructors stand for the remaining vizier parameter types). -/
inductive ParameterType where
  | CATEGORICAL
  | DOUBLE
  | INTEGER
  | DISCRETE
  deriving Repr, DecidableEq

/-- A `vz.ParameterConfig`: the name, type and feasible values of one
parameter of the search space (external vizier type; only the fields the
notebook reads are modelled). -/
structure ParameterConfig where
  name : String
  type : ParameterType
  feasible_values : List String
  deriving Repr, DecidableEq

/-- A `vz.SearchSpace`: the list of its parameter configs. -/
structure SearchSpace where
  parameters : List ParameterConfig
  deriving Repr, DecidableEq

/-- A `vz.ParameterValue`. -/
structure ParameterValue where
  value : String
  deriving Repr, DecidableEq

/-- A Python `dict` with `String` keys, as an association list; assignment
replaces the first matching key in place and otherwise appends, lookup
returns the first match — CPython dict semantics (keys are unique for
dicts built by repeated assignment from empty). -/
abbrev PyDict (α : Type) : Type := List (String × α)

/-- The empty dict (`vz.ParameterDict()`, `vz.Metadata()`). -/
def PyDict.empty {α : Type} : PyDict α := []

/-- `d[key] = v`. -/
def PyDict.set {α : Type} : PyDict α → String → α → PyDict α
  | [], key, v => [(key, v)]
  | (k, w) :: rest, key, v =>
    if k = key then (k, v) :: rest else (k, w) :: PyDict.set rest key v

/-- `d[key]`, as an `Option` (`none` models `KeyError`). -/
def PyDict.lookup {α : Type} : PyDict α → String → Option α
  | [], _ => none
  | (k, w) :: rest, key => if k = key then some w else PyDict.lookup rest key

/-- A `vz.ParameterDict`: parameter name ↦ `ParameterValue`. -/
abbrev ParameterDict : Type := PyDict ParameterValue

/-- The loop body of `make_parameters`: process the remaining parameter
configs, threading the dict built so far.  A non-CATEGORICAL config raises
`ValueError`; `feasible_values[index % len(feasible_values)]` raises
`ZeroDivisionError` when `feasible_values` is empty (Python `index % 0`). -/
def make_parameters_loop (index : Int) :
    List ParameterConfig → ParameterDict → Except PyError ParameterDict
  | [], parameter_dict => .ok parameter_dict
  | parameter_config :: rest, parameter_dict =>
    if parameter_config.type ≠ ParameterType.CATEGORICAL then
      .error (.valueError "This function only supports CATEGORICAL parameters.")
    else
      let feasible_values := parameter_config.feasible_values
      if feasible_values.length = 0 then
        .error .zeroDivisionError
      else
        let v := feasible_values.getD (index % (feasible_values.length : Int)).toNat ""
        make_parameters_loop index rest
          (parameter_dict.set parameter_config.name ⟨v⟩)

/-- `make_parameters(search_space, index)` from the notebook. -/
def make_parameters (search_space : SearchSpace) (index : Int) :
    Except PyError ParameterDict :=
  make_parameters_loop index search_space.parameters PyDict.empty

/-- A `vz.Trial`; only the `id` field is read by the notebook code. -/
structure Trial where
  id : Int
  deriving Repr, DecidableEq

/-- Trial status values used by the notebook. -/
inductive TrialStatus where
  | COMPLETED
  | ACTIVE
  deriving Repr, DecidableEq

/-- A `pythia.PolicySupporter`, modelled by the trial data its `GetTrials`
calls return (the datastore contents, fixed for the duration of a call). -/
structure PolicySupporter where
  completed : List Trial
  active : List Trial
  deriving Repr, DecidableEq

/-- `policy_supporter.GetTrials(status_matches=...)`. -/
def PolicySupporter.GetTrials (ps : PolicySupporter) :
    TrialStatus → List Trial
  | .COMPLETED => ps.completed
  | .ACTIVE => ps.active

/-- `get_next_index(policy_supporter)` from the notebook: the maximum id over
completed and active trials, or `0` when there are none (Python
`max(trial_ids) if trial_ids else 0`). -/
def get_next_index (policy_supporter : PolicySupporter) : Int :=
  let trial_ids :=
    ((policy_supporter.GetTrials .COMPLETED) ++
      (policy_supporter.GetTrials .ACTIVE)).map Trial.id
  (trial_ids.max?).getD 0

/-- A `vz.StudyConfig` (only its search space is read). -/
structure StudyConfig where
  search_space : SearchSpace
  deriving Repr, DecidableEq

/-- A `pythia.SuggestRequest` (only `count` and `study_config` are read;
`count` is the number of trials requested). -/
structure SuggestRequest where
  count : Nat
  study_config : StudyConfig
  deriving Repr, DecidableEq

/-- A `vz.TrialSuggestion(parameters=...)`. -/
structure TrialSuggestion where
  parameters : ParameterDict
  deriving DecidableEq

/-- A `vz.MetadataDelta()`; the notebook only constructs the empty one. -/
structure MetadataDelta where
  deriving Repr, DecidableEq

/-- A `pythia.SuggestDecision(suggestions=..., metadata=...)`. -/
structure SuggestDecision where
  suggestions : List TrialSuggestion
  metadata : MetadataDelta
  deriving DecidableEq

/-- `MyPolicy` from the notebook, holding its injected supporter. -/
structure MyPolicy where
  policy_supporter : PolicySupporter
  deriving Repr, DecidableEq

/-- The `for _ in range(request.count)` loop of `MyPolicy.suggest`,
accumulating `suggest_decision_list`; an exception from `make_parameters`
aborts the whole call. -/
def MyPolicy.suggestLoop (p : MyPolicy) (request : SuggestRequest) :
    Nat → List TrialSuggestion → Except PyError (List TrialSuggestion)
  | 0, acc => .ok acc
  | n + 1, acc =>
    let index := get_next_index p.policy_supporter
    match make_parameters request.study_config.search_space index with
    | .error e => .error e
    | .ok parameters => MyPolicy.suggestLoop p request n (acc ++ [⟨parameters⟩])

/-- `MyPolicy.suggest(request)` from the notebook. -/
def MyPolicy.suggest (p : MyPolicy) (request : SuggestRequest) :
    Except PyError SuggestDecision :=
  match MyPolicy.suggestLoop p request request.count [] with
  | .error e => .error e
  | .ok suggest_decision_list => .ok ⟨suggest_decision_list, ⟨⟩⟩

/-- `algorithms.CompletedTrials`. -/
structure CompletedTrials where
  trials : List Trial
  deriving Repr, DecidableEq

/-- `algorithms.ActiveTrials`. -/
structure ActiveTrials where
  trials : List Trial
  deriving Repr, DecidableEq

/-- `MyDesigner` from the notebook: its `__init__` arguments and the two
trial lists it accumulates. -/
structure MyDesigner where
  study_config : StudyConfig
  completed_trials : List Trial
  active_trials : List Trial
  deriving Repr, DecidableEq

/-- `MyDesigner(study_config)`. -/
def MyDesigner.init (study_config : StudyConfig) : MyDesigner :=
  ⟨study_config, [], []⟩

/-- `MyDesigner.update(completed, all_active)`: extends the completed list,
replaces the active list. -/
def MyDesigner.update (d : MyDesigner) (completed : CompletedTrials)
    (all_active : ActiveTrials) : MyDesigner :=
  { d with
    completed_trials := d.completed_trials ++ completed.trials
    active_trials := all_active.trials }

/-- A Python list comprehension `[f(i) for i in l]` whose body may raise:
evaluated left to right, the first exception aborts the whole list. -/
def listComp {α : Type} (f : Int → Except PyError α) :
    List Int → Except PyError (List α)
  | [] => .ok []
  | i :: rest =>
    match f i with
    | .error e => .error e
    | .ok x =>
      match listComp f rest with
      | .error e => .error e
      | .ok xs => .ok (x :: xs)

/-- Python `range(n)` for an `int` argument (empty when `n ≤ 0`). -/
def pyRange (n : Int) : List Int :=
  (List.range n.toNat).map Int.ofNat

/-- `MyDesigner.suggest(count)`: `None` returns `[]`; otherwise
`max(trial_ids)` raises `ValueError` on an empty sequence (Python `max`),
and the comprehension calls `make_parameters` at each index
`current_index + i` (the notebook returns the `ParameterDict`s directly). -/
def MyDesigner.suggest (d : MyDesigner) (count : Option Int) :
    Except PyError (List ParameterDict) :=
  match count with
  | none => .ok []
  | some n =>
    let trial_ids := (d.completed_trials ++ d.active_trials).map Trial.id
    match trial_ids.max? with
    | none => .error (.valueError "max() arg is an empty sequence")
    | some current_index =>
      listComp
        (fun i => make_parameters d.study_config.search_space (current_index + i))
        (pyRange n)

/-- `CounterDesigner` from the notebook.  Its `__init__` body and the
computation of `suggestions` inside `suggest` are elided as `...` in the
source, so `suggest` is parametrised by the result of that elided
computation; the counter bookkeeping shown in the source is kept exactly. -/
structure CounterDesigner where
  counter : Nat
  deriving Repr, DecidableEq

/-- `CounterDesigner.__init__`: `self._counter = 0`. -/
def CounterDesigner.init : CounterDesigner := ⟨0⟩

/-- `CounterDesigner.suggest`: returns the (elided) `suggestions` and the
state after `self._counter += len(suggestions)`. -/
def CounterDesigner.suggest (d : CounterDesigner)
    (suggestions : List TrialSuggestion) :
    List TrialSuggestion × CounterDesigner :=
  (suggestions, ⟨d.counter + suggestions.length⟩)

/-- Running a sequence of `suggest` calls, each with the output of its
elided suggestion computation, and keeping the final state. -/
def CounterDesigner.runSuggests (d : CounterDesigner) :
    List (List TrialSuggestion) → CounterDesigner
  | [] => d
  | batch :: rest => CounterDesigner.runSuggests (d.suggest batch).2 rest

/-- A Python value stored in a designer field or a `vz.Metadata` entry:
the notebook code only ever stores ints and strings there. -/
inductive PyValue where
  | int (n : Int)
  | str (s : String)
  deriving Repr, DecidableEq

/-- The decimal digits of `n` most significant first, as characters
(`'0'` for `0`), i.e. the body of Python `str()` on a nonnegative int. -/
def natChars (n : Nat) : List Char :=
  if n = 0 then ['0']
  else ((Nat.digits 10 n).reverse).map (fun d => Char.ofNat (48 + d))

/-- Python `str()` on an int: optional minus sign followed by decimal digits. -/
def pyIntStr (n : Int) : String :=
  if n < 0 then ⟨'-' :: natChars n.natAbs⟩ else ⟨natChars n.toNat⟩

/-- Python `str()` on a `PyValue`. -/
def pyStr : PyValue → String
  | .int n => pyIntStr n
  | .str s => s

/-- One decimal digit character, as its value. -/
def charDigit? (c : Char) : Option Nat :=
  if 48 ≤ c.toNat ∧ c.toNat ≤ 57 then some (c.toNat - 48) else none

/-- All-decimal-digit parse of a character list (most significant first). -/
def digitsOfChars : List Char → Option (List Nat)
  | [] => some []
  | c :: rest =>
    match charDigit? c, digitsOfChars rest with
    | some d, some ds => some (d :: ds)
    | _, _ => none

/-- Parse of a nonempty decimal digit string. -/
def parseNatChars (l : List Char) : Option Nat :=
  if l = [] then none
  else (digitsOfChars l).map (fun ds => Nat.ofDigits 10 ds.reverse)

/-- Python `int()` on a string, restricted to the decimal-literal forms the
notebook produces (optional minus sign then digits); anything else is the
`ValueError` that `int()` raises. -/
def pyParseInt (s : String) : Option Int :=
  match s.data with
  | [] => none
  | c :: rest =>
    if c = '-' then (parseNatChars rest).map (fun m => -(m : Int))
    else (parseNatChars (c :: rest)).map (fun m => (m : Int))

/-- Python `int()` on a `PyValue`. -/
def pyInt : PyValue → Except PyError Int
  | .int n => .ok n
  | .str s =>
    match pyParseInt s with
    | some n => .ok n
    | none => .error (.valueError "invalid literal for int() with base 10")

/-- A `vz.Metadata`: a key-value store, modelled as a Python dict of
`PyValue`s (the notebook reads and writes only string values). -/
abbrev Metadata : Type := PyDict PyValue

/-- `CounterSerialDesigner` from the notebook.  Its `_counter` field is
annotated `int` in `__init__` but Python does not enforce the annotation,
so the field is modelled as a `PyValue`. -/
structure CounterSerialDesigner where
  counter : PyValue
  deriving Repr, DecidableEq

/-- `CounterSerialDesigner.dump`: `metadata['counter'] = str(self._counter)`. -/
def CounterSerialDesigner.dump (d : CounterSerialDesigner) : Metadata :=
  PyDict.set PyDict.empty "counter" (.str (pyStr d.counter))

/-- `CounterSerialDesigner.recover(metadata)`: `cls(metadata['counter'])` —
note the entry is passed to `__init__` as is, with no `int()` conversion. -/
def CounterSerialDesigner.recover (metadata : Metadata) :
    Except PyError CounterSerialDesigner :=
  match metadata.lookup "counter" with
  | none => .error (.keyError "counter")
  | some v => .ok ⟨v⟩

/-- `CounterPartialDesigner` from the notebook (its only state is
`_counter`, written by `load`). -/
structure CounterPartialDesigner where
  counter : PyValue
  deriving Repr, DecidableEq

/-- `CounterPartialDesigner.load(metadata)`:
`self._counter = int(metadata['counter'])`. -/
def CounterPartialDesigner.load (_d : CounterPartialDesigner)
    (metadata : Metadata) : Except PyError CounterPartialDesigner :=
  match metadata.lookup "counter" with
  | none => .error (.keyError "counter")
  | some v =>
    match pyInt v with
    | .error e => .error e
    | .ok n => .ok ⟨.int n⟩

/-- `CounterPartialDesigner.dump`: `metadata['counter'] = str(self._counter)`. -/
def CounterPartialDesigner.dump (d : CounterPartialDesigner) : Metadata :=
  PyDict.set PyDict.empty "counter" (.str (pyStr d.counter))

/-- One Dockerfile instruction (the three kinds the repository's
Dockerfile uses). -/
inductive DockerInstruction where
  | FROM (image : String)
  | RUN (cmd : String)
  | COPY (src dst : String)
  deriving Repr, DecidableEq

/-- The repository's `Dockerfile`, instruction by instruction. -/
def dockerfile : List DockerInstruction :=
  [ .FROM "python:3.11.4-slim",
    .RUN "apt-get update && apt-get install -y --no-install-recommends build-essential wget && apt-get purge -y --auto-remove && rm -rf /var/lib/apt/lists/*",
    .COPY "./" ".",
    .RUN "pip3 install --no-cache-dir -U -r requirements.txt && pip3 install --no-cache-dir -U -r requirements-jax.txt && pip3 install -U \"google-vizier[jax]\"",
    .RUN "./build_protos.sh" ]

/-- Whether a Dockerfile instruction is a `RUN` whose command mentions the
given text. -/
def DockerInstruction.runMentions (i : DockerInstruction) (text : String) : Prop :=
  match i with
  | .RUN cmd => text.data <:+: cmd.data
  | _ => False

instance (i : DockerInstruction) (text : String) :
    Decidable (i.runMentions text) := by
  cases i <;> simp [DockerInstruction.runMentions] <;> infer_instance

/-! Helper lemmas about the dict operations and `make_parameters`. -/

theorem PyDict.lookup_set_self {α : Type} (d : PyDict α) (k : String) (v : α) :
    (d.set k v).lookup k = some v := by
  induction d with
  | nil => simp [PyDict.set, PyDict.lookup]
  | cons p rest ih =>
    obtain ⟨k', w⟩ := p
    by_cases h : k' = k
    · simp [PyDict.set, PyDict.lookup, h]
    · simp [PyDict.set, PyDict.lookup, h, ih]

theorem PyDict.lookup_set_ne {α : Type} (d : PyDict α) {k k' : String} (v : α)
    (h : k' ≠ k) : (d.set k v).lookup k' = d.lookup k' := by
  induction d with
  | nil => simp [PyDict.set, PyDict.lookup, Ne.symm h]
  | cons p rest ih =>
    obtain ⟨k'', w⟩ := p
    by_cases h2 : k'' = k
    · subst h2
      simp [PyDict.set, PyDict.lookup, Ne.symm h]
    · simp only [PyDict.set, h2, if_false, PyDict.lookup]
      by_cases h3 : k'' = k'
      · simp [h3]
      · simp [h3, ih]

/-- When every config is CATEGORICAL with nonempty feasible values and names
are distinct, the `make_parameters` loop succeeds, each processed config's
name looks up to its cyclically chosen value, and other keys are untouched. -/
theorem make_parameters_loop_spec (index : Int) (cfgs : List ParameterConfig) :
    ∀ acc : ParameterDict,
      (∀ c ∈ cfgs, c.type = ParameterType.CATEGORICAL) →
      (∀ c ∈ cfgs, c.feasible_values ≠ []) →
      (cfgs.map ParameterConfig.name).Nodup →
      ∃ d, make_parameters_loop index cfgs acc = .ok d ∧
        (∀ c ∈ cfgs, d.lookup c.name =
          some ⟨c.feasible_values.getD
            (index % (c.feasible_values.length : Int)).toNat ""⟩) ∧
        (∀ k, k ∉ cfgs.map ParameterConfig.name → d.lookup k = acc.lookup k) := by
  induction cfgs with
  | nil =>
    intro acc _ _ _
    exact ⟨acc, rfl, by simp, fun k _ => rfl⟩
  | cons c rest ih =>
    intro acc hcat hne hnodup
    have hc : c.type = ParameterType.CATEGORICAL := hcat c (by simp)
    have hlen : c.feasible_values.length ≠ 0 := by
      simpa [List.length_eq_zero] using hne c (by simp)
    rw [List.map_cons, List.nodup_cons] at hnodup
    have hname : c.name ∉ rest.map ParameterConfig.name := hnodup.1
    obtain ⟨d, hd, hlook, hout⟩ :=
      ih (acc.set c.name
          ⟨c.feasible_values.getD (index % (c.feasible_values.length : Int)).toNat ""⟩)
        (fun c' hc' => hcat c' (by simp [hc']))
        (fun c' hc' => hne c' (by simp [hc']))
        hnodup.2
    refine ⟨d, ?_, ?_, ?_⟩
    · simpa [make_parameters_loop, hc, hlen] using hd
    · intro c' hc'
      rcases List.mem_cons.mp hc' with h | h
      · subst h
        rw [hout c'.name hname, PyDict.lookup_set_self]
      · exact hlook c' h
    · intro k hk
      have hk1 : k ≠ c.name := by
        intro h
        exact hk (by simp [h])
      have hk2 : k ∉ rest.map ParameterConfig.name := by
        intro h
        exact hk (by simp [h])
      rw [hout k hk2, PyDict.lookup_set_ne _ _ hk1]

/-- The loop only raises `ValueError` when some config is non-CATEGORICAL. -/
theorem make_parameters_loop_valueError (index : Int) (cfgs : List ParameterConfig) :
    ∀ (acc : ParameterDict) (msg : String),
      make_parameters_loop index cfgs acc = .error (.valueError msg) →
      ∃ c ∈ cfgs, c.type ≠ ParameterType.CATEGORICAL := by
  induction cfgs with
  | nil => intro acc msg h; simp [make_parameters_loop] at h
  | cons c rest ih =>
    intro acc msg h
    by_cases hc : c.type = ParameterType.CATEGORICAL
    · by_cases hlen : c.feasible_values.length = 0
      · simp [make_parameters_loop, hc, hlen] at h
      · simp only [make_parameters_loop, hc, hlen] at h
        obtain ⟨c', hc', hty⟩ := ih _ msg (by simpa using h)
        exact ⟨c', by simp [hc'], hty⟩
    · exact ⟨c, by simp, hc⟩

/-- If some config is non-CATEGORICAL and the categorical ones cannot raise
`ZeroDivisionError` first, the loop raises `ValueError`. -/
theorem make_parameters_loop_error_of_bad (index : Int) (cfgs : List ParameterConfig) :
    ∀ acc : ParameterDict,
      (∀ c ∈ cfgs, c.type = ParameterType.CATEGORICAL → c.feasible_values ≠ []) →
      (∃ c ∈ cfgs, c.type ≠ ParameterType.CATEGORICAL) →
      make_parameters_loop index cfgs acc =
        .error (.valueError "This function only supports CATEGORICAL parameters.") := by
  induction cfgs with
  | nil => intro acc _ h; simp at h
  | cons c rest ih =>
    intro acc hne hbad
    by_cases hc : c.type = ParameterType.CATEGORICAL
    · have hlen : c.feasible_values.length ≠ 0 := by
        simpa [List.length_eq_zero] using hne c (by simp) hc
      obtain ⟨c', hc', hty⟩ := hbad
      have hc'rest : c' ∈ rest := by
        rcases List.mem_cons.mp hc' with h | h
        · exact absurd (h ▸ hc) hty
        · exact h
      simpa [make_parameters_loop, hc, hlen] using
        ih _ (fun x hx hcx => hne x (by simp [hx]) hcx) ⟨c', hc'rest, hty⟩
    · simp [make_parameters_loop, hc]

/-- The loop raises `ValueError` at the first non-CATEGORICAL config,
whatever follows it, provided the preceding configs do not raise first. -/
theorem make_parameters_loop_first_bad (index : Int) (c : ParameterConfig)
    (post : List ParameterConfig) (hc : c.type ≠ ParameterType.CATEGORICAL) :
    ∀ (pre : List ParameterConfig) (acc : ParameterDict),
      (∀ c' ∈ pre, c'.type = ParameterType.CATEGORICAL) →
      (∀ c' ∈ pre, c'.feasible_values ≠ []) →
      make_parameters_loop index (pre ++ c :: post) acc =
        .error (.valueError "This function only supports CATEGORICAL parameters.") := by
  intro pre
  induction pre with
  | nil => intro acc _ _; simp [make_parameters_loop, hc]
  | cons c' rest ih =>
    intro acc hcat hne
    have hc' : c'.type = ParameterType.CATEGORICAL := hcat c' (by simp)
    have hlen : c'.feasible_values.length ≠ 0 := by
      simpa [List.length_eq_zero] using hne c' (by simp)
    simpa [make_parameters_loop, hc', hlen] using
      ih _ (fun x hx => hcat x (by simp [hx])) (fun x hx => hne x (by simp [hx]))

/-- Casting helper: Python `index % len` for a natural index agrees with
`Nat` modulo. -/
theorem emod_toNat (i len : Nat) : ((i : Int) % (len : Int)).toNat = i % len := by
  rw [← Int.natCast_mod, Int.toNat_natCast]

/-- C1 (amended): for a search space whose parameter configs all have type
CATEGORICAL, pairwise distinct names and nonempty feasible values, and any
natural index i, make_parameters returns a dict mapping each config's name
to that config's feasible value at position i mod len(feasible_values), and
the chosen value cycles in i with period len(feasible_values). -/
theorem make_parameters_cycles_through_categories (s : SearchSpace) (i : Nat)
    (hcat : ∀ c ∈ s.parameters, c.type = ParameterType.CATEGORICAL)
    (hne : ∀ c ∈ s.parameters, c.feasible_values ≠ [])
    (hnames : (s.parameters.map ParameterConfig.name).Nodup) :
    ∃ d, make_parameters s (i : Int) = .ok d ∧
      (∀ c ∈ s.parameters,
        d.lookup c.name =
          some ⟨c.feasible_values.getD (i % c.feasible_values.length) ""⟩) ∧
      (∀ c ∈ s.parameters, ∀ d',
        make_parameters s ((i : Int) + (c.feasible_values.length : Int)) = .ok d' →
        d'.lookup c.name = d.lookup c.name) := by
  obtain ⟨d, hd, hlook, -⟩ :=
    make_parameters_loop_spec (i : Int) s.parameters PyDict.empty hcat hne hnames
  refine ⟨d, hd, ?_, ?_⟩
  · intro c hc
    rw [hlook c hc, emod_toNat]
  · intro c hc d' hd'
    obtain ⟨d'', hd'', hlook'', -⟩ :=
      make_parameters_loop_spec ((i : Int) + (c.feasible_values.length : Int))
        s.parameters PyDict.empty hcat hne hnames
    have : d' = d'' := by
      rw [show make_parameters s ((i : Int) + (c.feasible_values.length : Int)) =
        make_parameters_loop ((i : Int) + (c.feasible_values.length : Int))
          s.parameters PyDict.empty from rfl, hd''] at hd'
      exact ((Except.ok.injEq _ _).mp hd').symm
    subst this
    rw [hlook'' c hc, hlook c hc, Int.add_emod_self]

/-- C1 witness: a concrete two-parameter categorical search space at i = 5. -/
theorem make_parameters_cycles_through_categories_witness :
    (∀ c ∈ (SearchSpace.mk
        [⟨"p", .CATEGORICAL, ["a", "b", "c"]⟩, ⟨"q", .CATEGORICAL, ["x", "y"]⟩]).parameters,
      c.type = ParameterType.CATEGORICAL) ∧
    (∀ c ∈ (SearchSpace.mk
        [⟨"p", .CATEGORICAL, ["a", "b", "c"]⟩, ⟨"q", .CATEGORICAL, ["x", "y"]⟩]).parameters,
      c.feasible_values ≠ []) ∧
    ((SearchSpace.mk
        [⟨"p", .CATEGORICAL, ["a", "b", "c"]⟩, ⟨"q", .CATEGORICAL, ["x", "y"]⟩]).parameters.map
      ParameterConfig.name).Nodup ∧
    (∃ d, make_parameters (SearchSpace.mk
        [⟨"p", .CATEGORICAL, ["a", "b", "c"]⟩, ⟨"q", .CATEGORICAL, ["x", "y"]⟩]) (5 : Nat) = .ok d ∧
      (∀ c ∈ (SearchSpace.mk
          [⟨"p", .CATEGORICAL, ["a", "b", "c"]⟩, ⟨"q", .CATEGORICAL, ["x", "y"]⟩]).parameters,
        d.lookup c.name =
          some ⟨c.feasible_values.getD (5 % c.feasible_values.length) ""⟩) ∧
      (∀ c ∈ (SearchSpace.mk
          [⟨"p", .CATEGORICAL, ["a", "b", "c"]⟩, ⟨"q", .CATEGORICAL, ["x", "y"]⟩]).parameters, ∀ d',
        make_parameters (SearchSpace.mk
          [⟨"p", .CATEGORICAL, ["a", "b", "c"]⟩, ⟨"q", .CATEGORICAL, ["x", "y"]⟩])
          ((5 : Nat) + (c.feasible_values.length : Int)) = .ok d' →
        d'.lookup c.name = d.lookup c.name)) :=
  ⟨by decide, by decide, by decide,
    make_parameters_cycles_through_categories _ 5 (by decide) (by decide) (by decide)⟩

/-- C1 counterexample: with every config CATEGORICAL, make_parameters can
still fail to return a dict (empty feasible values raise ZeroDivisionError
at `index % 0`), and with duplicate names the earlier config's name maps to
the later config's value ("b"), not its own ("a"). -/
theorem make_parameters_cycles_counterexample :
    (∀ c ∈ (SearchSpace.mk [⟨"p", .CATEGORICAL, []⟩]).parameters,
      c.type = ParameterType.CATEGORICAL) ∧
    make_parameters (SearchSpace.mk [⟨"p", .CATEGORICAL, []⟩]) 0 =
      .error .zeroDivisionError ∧
    (∀ c ∈ (SearchSpace.mk
        [⟨"p", .CATEGORICAL, ["a"]⟩, ⟨"p", .CATEGORICAL, ["b"]⟩]).parameters,
      c.type = ParameterType.CATEGORICAL) ∧
    make_parameters
        (SearchSpace.mk [⟨"p", .CATEGORICAL, ["a"]⟩, ⟨"p", .CATEGORICAL, ["b"]⟩]) 0 =
      .ok [("p", ⟨"b"⟩)] ∧
    (([("p", ⟨"b"⟩)] : ParameterDict).lookup "p" = some ⟨"b"⟩) ∧
    (ParameterValue.mk "b" ≠
      ⟨(ParameterConfig.mk "p" .CATEGORICAL ["a"]).feasible_values.getD (0 % 1) ""⟩) := by
  refine ⟨by decide, by decide, by decide, by decide, by decide, by decide⟩

/-- C2 (amended): provided every CATEGORICAL config has nonempty feasible
values, make_parameters raises ValueError iff the search space contains a
non-CATEGORICAL config, it raises at the first such config whatever follows
it, and (being an exception) returns no dict in that case. -/
theorem make_parameters_valueError_iff (s : SearchSpace) (index : Int)
    (hne : ∀ c ∈ s.parameters,
      c.type = ParameterType.CATEGORICAL → c.feasible_values ≠ []) :
    ((∃ msg, make_parameters s index = .error (.valueError msg)) ↔
      ∃ c ∈ s.parameters, c.type ≠ ParameterType.CATEGORICAL) ∧
    (∀ pre c post, s.parameters = pre ++ c :: post →
      c.type ≠ ParameterType.CATEGORICAL →
      (∀ c' ∈ pre, c'.type = ParameterType.CATEGORICAL) →
      make_parameters s index =
        .error (.valueError "This function only supports CATEGORICAL parameters.")) := by
  have hfirst : ∀ pre c post, s.parameters = pre ++ c :: post →
      c.type ≠ ParameterType.CATEGORICAL →
      (∀ c' ∈ pre, c'.type = ParameterType.CATEGORICAL) →
      make_parameters s index =
        .error (.valueError "This function only supports CATEGORICAL parameters.") := by
    intro pre c post hsplit hcty hpre
    have hpre' : ∀ c' ∈ pre, c'.feasible_values ≠ [] := by
      intro c' hc'
      exact hne c' (by simp [hsplit, hc']) (hpre c' hc')
    rw [show make_parameters s index =
      make_parameters_loop index s.parameters PyDict.empty from rfl, hsplit]
    exact make_parameters_loop_first_bad index c post hcty pre PyDict.empty hpre hpre'
  refine ⟨⟨?_, ?_⟩, hfirst⟩
  · rintro ⟨msg, hmsg⟩
    exact make_parameters_loop_valueError index s.parameters PyDict.empty msg hmsg
  · rintro ⟨c, hc, hcty⟩
    exact ⟨"This function only supports CATEGORICAL parameters.",
      make_parameters_loop_error_of_bad index s.parameters PyDict.empty hne ⟨c, hc, hcty⟩⟩

/-- C2 witness: a search space whose second config is non-CATEGORICAL;
make_parameters raises the ValueError there. -/
theorem make_parameters_valueError_iff_witness :
    (∀ c ∈ (SearchSpace.mk
        [⟨"ok", .CATEGORICAL, ["v"]⟩, ⟨"bad", .DOUBLE, []⟩, ⟨"later", .INTEGER, []⟩]).parameters,
      c.type = ParameterType.CATEGORICAL → c.feasible_values ≠ []) ∧
    make_parameters (SearchSpace.mk
        [⟨"ok", .CATEGORICAL, ["v"]⟩, ⟨"bad", .DOUBLE, []⟩, ⟨"later", .INTEGER, []⟩]) 0 =
      .error (.valueError "This function only supports CATEGORICAL parameters.") :=
  ⟨by decide,
    (make_parameters_valueError_iff (SearchSpace.mk
        [⟨"ok", .CATEGORICAL, ["v"]⟩, ⟨"bad", .DOUBLE, []⟩, ⟨"later", .INTEGER, []⟩]) 0
      (by decide)).2
      [⟨"ok", .CATEGORICAL, ["v"]⟩] ⟨"bad", .DOUBLE, []⟩ [⟨"later", .INTEGER, []⟩]
      rfl (by decide) (by decide)⟩

/-- C2 counterexample: a CATEGORICAL config with empty feasible values comes
before the non-CATEGORICAL config, so Python raises ZeroDivisionError, not
ValueError, although the space does contain a non-CATEGORICAL config. -/
theorem make_parameters_valueError_iff_counterexample :
    make_parameters
        (SearchSpace.mk [⟨"a", .CATEGORICAL, []⟩, ⟨"b", .DOUBLE, []⟩]) 0 =
      .error .zeroDivisionError ∧
    (∃ c ∈ (SearchSpace.mk
        [⟨"a", .CATEGORICAL, []⟩, ⟨"b", .DOUBLE, []⟩]).parameters,
      c.type ≠ ParameterType.CATEGORICAL) ∧
    (PyError.zeroDivisionError ≠
      .valueError "This function only supports CATEGORICAL parameters.") := by
  refine ⟨by decide, ⟨⟨"b", .DOUBLE, []⟩, by decide, by decide⟩, by decide⟩

/-- C3: MyPolicy is stateless — its suggest result depends only on the
request and the trial data returned by the injected supporter, so two
instances (e.g. one deleted and one freshly reconstructed) whose supporters
return the same completed and active trials give equal SuggestDecisions on
equal requests. -/
theorem MyPolicy_suggest_stateless (s1 s2 : PolicySupporter)
    (request : SuggestRequest)
    (hcomp : s1.completed = s2.completed) (hact : s1.active = s2.active) :
    (MyPolicy.mk s1).suggest request = (MyPolicy.mk s2).suggest request := by
  cases s1
  cases s2
  cases hcomp
  cases hact
  rfl

/-- C3 witness: two policies over supporters holding the same trial data. -/
theorem MyPolicy_suggest_stateless_witness :
    (PolicySupporter.mk [⟨1⟩] [⟨2⟩]).completed =
        (PolicySupporter.mk [⟨1⟩] [⟨2⟩]).completed ∧
    (PolicySupporter.mk [⟨1⟩] [⟨2⟩]).active =
        (PolicySupporter.mk [⟨1⟩] [⟨2⟩]).active ∧
    (MyPolicy.mk (PolicySupporter.mk [⟨1⟩] [⟨2⟩])).suggest
        ⟨1, ⟨⟨[⟨"p", .CATEGORICAL, ["a", "b", "c"]⟩]⟩⟩⟩ =
      (MyPolicy.mk (PolicySupporter.mk [⟨1⟩] [⟨2⟩])).suggest
        ⟨1, ⟨⟨[⟨"p", .CATEGORICAL, ["a", "b", "c"]⟩]⟩⟩⟩ :=
  ⟨rfl, rfl,
    MyPolicy_suggest_stateless (PolicySupporter.mk [⟨1⟩] [⟨2⟩])
      (PolicySupporter.mk [⟨1⟩] [⟨2⟩])
      ⟨1, ⟨⟨[⟨"p", .CATEGORICAL, ["a", "b", "c"]⟩]⟩⟩⟩ rfl rfl⟩

/-- Folding `update` accumulates the completed batches onto the stored list. -/
theorem MyDesigner_foldl_completed (ups : List (CompletedTrials × ActiveTrials)) :
    ∀ d : MyDesigner,
      (ups.foldl (fun d p => d.update p.1 p.2) d).completed_trials =
        d.completed_trials ++ (ups.map (fun p => p.1.trials)).flatten := by
  induction ups with
  | nil => intro d; simp
  | cons p rest ih =>
    intro d
    rw [List.foldl_cons, ih]
    simp [MyDesigner.update, List.append_assoc]

/-- Folding `update` over a nonempty call list leaves the last active batch. -/
theorem MyDesigner_foldl_active (ups : List (CompletedTrials × ActiveTrials)) :
    ∀ (d : MyDesigner) (h : ups ≠ []),
      (ups.foldl (fun d p => d.update p.1 p.2) d).active_trials =
        (ups.getLast h).2.trials := by
  induction ups with
  | nil => intro d h; exact absurd rfl h
  | cons p rest ih =>
    intro d h
    cases rest with
    | nil => simp [MyDesigner.update]
    | cons q rest' =>
      rw [List.foldl_cons, List.getLast_cons (by simp), ih _ (by simp)]

/-- C5: update extends the stored completed list with the new batch and
replaces the stored active list; hence after any nonempty sequence of
updates from a fresh designer, the completed list is the concatenation of
all completed batches in call order and the active list is the most recent
batch. -/
theorem MyDesigner_update_accumulates (study_config : StudyConfig)
    (ups : List (CompletedTrials × ActiveTrials)) (h : ups ≠ []) :
    (∀ (d : MyDesigner) (completed : CompletedTrials) (all_active : ActiveTrials),
      (d.update completed all_active).completed_trials =
          d.completed_trials ++ completed.trials ∧
      (d.update completed all_active).active_trials = all_active.trials) ∧
    (ups.foldl (fun d p => d.update p.1 p.2)
        (MyDesigner.init study_config)).completed_trials =
      (ups.map (fun p => p.1.trials)).flatten ∧
    (ups.foldl (fun d p => d.update p.1 p.2)
        (MyDesigner.init study_config)).active_trials =
      (ups.getLast h).2.trials := by
  refine ⟨fun d c a => ⟨rfl, rfl⟩, ?_, MyDesigner_foldl_active ups _ h⟩
  rw [MyDesigner_foldl_completed]
  simp [MyDesigner.init]

/-- C5 witness: two update calls on a fresh designer. -/
theorem MyDesigner_update_accumulates_witness :
    ([(⟨[⟨1⟩]⟩, ⟨[⟨2⟩]⟩), (⟨[⟨3⟩]⟩, ⟨[⟨4⟩]⟩)] :
      List (CompletedTrials × ActiveTrials)) ≠ [] ∧
    ([(⟨[⟨1⟩]⟩, ⟨[⟨2⟩]⟩), (⟨[⟨3⟩]⟩, ⟨[⟨4⟩]⟩)].foldl
        (fun d p => d.update p.1 p.2)
        (MyDesigner.init ⟨⟨[]⟩⟩)).completed_trials = [⟨1⟩, ⟨3⟩] ∧
    ([(⟨[⟨1⟩]⟩, ⟨[⟨2⟩]⟩), (⟨[⟨3⟩]⟩, ⟨[⟨4⟩]⟩)].foldl
        (fun d p => d.update p.1 p.2)
        (MyDesigner.init ⟨⟨[]⟩⟩)).active_trials = [⟨4⟩] := by
  have h := MyDesigner_update_accumulates ⟨⟨[]⟩⟩
    [(⟨[⟨1⟩]⟩, ⟨[⟨2⟩]⟩), (⟨[⟨3⟩]⟩, ⟨[⟨4⟩]⟩)] (by decide)
  exact ⟨by decide, h.2.1.trans (by decide), h.2.2.trans (by decide)⟩

/-- Counter bookkeeping over a whole run of suggest calls. -/
theorem CounterDesigner_runSuggests_counter (batches : List (List TrialSuggestion)) :
    ∀ d : CounterDesigner,
      (d.runSuggests batches).counter = d.counter + (batches.map List.length).sum := by
  induction batches with
  | nil => intro d; simp [CounterDesigner.runSuggests]
  | cons b rest ih =>
    intro d
    simp [CounterDesigner.runSuggests, CounterDesigner.suggest, ih, Nat.add_assoc]

/-- C6: the counter starts at 0, each suggest call increases it by exactly
the length of the returned suggestion sequence, and hence after any run it
equals the total number of suggestions made. -/
theorem CounterDesigner_counter_invariant :
    CounterDesigner.init.counter = 0 ∧
    (∀ (d : CounterDesigner) (batch : List TrialSuggestion),
      ((d.suggest batch).2).counter = d.counter + ((d.suggest batch).1).length) ∧
    (∀ batches : List (List TrialSuggestion),
      (CounterDesigner.init.runSuggests batches).counter =
        (batches.map List.length).sum) := by
  refine ⟨rfl, fun d batch => rfl, fun batches => ?_⟩
  rw [CounterDesigner_runSuggests_counter]
  simp [CounterDesigner.init]

/-- C4 (code-bug evidence): dumping a CounterSerialDesigner whose counter is
the int 0 and recovering yields a designer whose counter is the string "0",
not the int 0 — `recover` passes `metadata['counter']` (a string, as
written by `dump`) straight to `__init__` with no `int()` conversion. -/
theorem CounterSerialDesigner_recover_dump_mismatch :
    CounterSerialDesigner.recover (CounterSerialDesigner.dump ⟨.int 0⟩) =
      .ok ⟨.str "0"⟩ ∧
    (PyValue.str "0" ≠ PyValue.int 0) := by
  exact ⟨by decide, by decide⟩

/-! Decimal round trip of Python `str`/`int`, used by C7. -/

theorem charDigit?_digitChar (d : Nat) (hd : d < 10) :
    charDigit? (Char.ofNat (48 + d)) = some d := by
  interval_cases d <;> decide

theorem digitChar_ne_minus (d : Nat) (hd : d < 10) :
    Char.ofNat (48 + d) ≠ '-' := by
  interval_cases d <;> decide

theorem digitsOfChars_map_digitChar (l : List Nat) (hl : ∀ d ∈ l, d < 10) :
    digitsOfChars (l.map (fun d => Char.ofNat (48 + d))) = some l := by
  induction l with
  | nil => rfl
  | cons d rest ih =>
    rw [List.map_cons]
    simp only [digitsOfChars, charDigit?_digitChar d (hl d (by simp)),
      ih (fun x hx => hl x (by simp [hx]))]

theorem natChars_ne_nil (n : Nat) : natChars n ≠ [] := by
  unfold natChars
  by_cases h : n = 0
  · simp [h]
  · simp [h, Nat.digits_ne_nil_iff_ne_zero.mpr h]

theorem natChars_digits (n : Nat) :
    ∀ ch ∈ natChars n, ∃ d, d < 10 ∧ ch = Char.ofNat (48 + d) := by
  intro ch hch
  unfold natChars at hch
  by_cases h : n = 0
  · simp [h] at hch
    exact ⟨0, by norm_num, by simpa using hch⟩
  · simp only [h, if_false, List.mem_map, List.mem_reverse] at hch
    obtain ⟨d, hd, rfl⟩ := hch
    exact ⟨d, Nat.digits_lt_base (by norm_num) hd, rfl⟩

theorem parseNatChars_natChars (n : Nat) : parseNatChars (natChars n) = some n := by
  by_cases h : n = 0
  · subst h; decide
  · have hmap : digitsOfChars (natChars n) = some ((Nat.digits 10 n).reverse) := by
      unfold natChars
      rw [if_neg h]
      exact digitsOfChars_map_digitChar _
        (fun d hd => Nat.digits_lt_base (by norm_num) (List.mem_reverse.mp hd))
    unfold parseNatChars
    rw [if_neg (natChars_ne_nil n), hmap]
    simp [List.reverse_reverse, Nat.ofDigits_digits]

theorem pyParseInt_natChars (n : Nat) : pyParseInt ⟨natChars n⟩ = some (n : Int) := by
  rcases hl : natChars n with _ | ⟨ch, rest⟩
  · exact absurd hl (natChars_ne_nil n)
  · obtain ⟨d, hd, hchd⟩ := natChars_digits n ch (by rw [hl]; simp)
    have hminus : ch ≠ '-' := hchd ▸ digitChar_ne_minus d hd
    show pyParseInt ⟨ch :: rest⟩ = some (n : Int)
    simp only [pyParseInt, if_neg hminus]
    rw [← hl, parseNatChars_natChars]
    rfl

theorem pyParseInt_pyIntStr (c : Int) : pyParseInt (pyIntStr c) = some c := by
  by_cases hc : c < 0
  · simp only [pyIntStr, if_pos hc]
    show (parseNatChars (natChars c.natAbs)).map (fun m => -(m : Int)) = some c
    rw [parseNatChars_natChars]
    show some (-(c.natAbs : Int)) = some c
    rw [Option.some.injEq]
    omega
  · simp only [pyIntStr, if_neg hc]
    rw [pyParseInt_natChars]
    congr 1
    omega

/-- C7: CounterPartialDesigner's dump stores str(counter) in metadata and
load parses it back with int(), so load(d.dump()) on any designer restores
the integer counter c exactly. -/
theorem CounterPartialDesigner_dump_load_roundtrip (c : Int)
    (d : CounterPartialDesigner) :
    d.load (CounterPartialDesigner.dump ⟨.int c⟩) = .ok ⟨.int c⟩ := by
  have h1 : (CounterPartialDesigner.dump ⟨.int c⟩).lookup "counter" =
      some (.str (pyIntStr c)) := by
    simp [CounterPartialDesigner.dump, PyDict.set, PyDict.empty, PyDict.lookup, pyStr]
  simp [CounterPartialDesigner.load, h1, pyInt, pyParseInt_pyIntStr c]

/-- The `make_parameters` loop succeeds whenever every config is
CATEGORICAL with nonempty feasible values (no distinctness needed). -/
theorem make_parameters_loop_isOk (index : Int) (cfgs : List ParameterConfig) :
    ∀ acc : ParameterDict,
      (∀ c ∈ cfgs, c.type = ParameterType.CATEGORICAL) →
      (∀ c ∈ cfgs, c.feasible_values ≠ []) →
      ∃ d, make_parameters_loop index cfgs acc = .ok d := by
  induction cfgs with
  | nil => exact fun acc _ _ => ⟨acc, rfl⟩
  | cons c rest ih =>
    intro acc hcat hne
    have hc : c.type = ParameterType.CATEGORICAL := hcat c (by simp)
    have hlen : c.feasible_values.length ≠ 0 := by
      simpa [List.length_eq_zero] using hne c (by simp)
    obtain ⟨d, hd⟩ := ih
      (acc.set c.name
        ⟨c.feasible_values.getD (index % (c.feasible_values.length : Int)).toNat ""⟩)
      (fun c' hc' => hcat c' (by simp [hc']))
      (fun c' hc' => hne c' (by simp [hc']))
    exact ⟨d, by simpa [make_parameters_loop, hc, hlen] using hd⟩

/-- A Python list comprehension whose body succeeds on every element
returns the list of results, pointwise. -/
theorem listComp_ok {α : Type} (f : Int → Except PyError α) :
    ∀ l : List Int, (∀ i ∈ l, ∃ x, f i = .ok x) →
      ∃ xs, listComp f l = .ok xs ∧
        List.Forall₂ (fun i x => f i = .ok x) l xs := by
  intro l
  induction l with
  | nil => exact fun _ => ⟨[], rfl, List.Forall₂.nil⟩
  | cons i rest ih =>
    intro h
    obtain ⟨x, hx⟩ := h i (by simp)
    obtain ⟨xs, hxs, hall⟩ := ih (fun j hj => h j (by simp [hj]))
    exact ⟨x :: xs, by simp [listComp, hx, hxs], List.Forall₂.cons hx hall⟩

/-- C9 (amended): suggest(None) is always the empty list; with no recorded
trials, suggest(n) raises the ValueError of Python max() on an empty
sequence (unlike get_next_index, which returns 0 for an empty supporter);
with at least one recorded trial and a well-formed all-CATEGORICAL search
space, suggest(n) returns one suggestion per element of range(n) — that is,
max(n, 0) of them — built by make_parameters at the consecutive indices
current_index + 0, ..., current_index + n - 1. -/
theorem MyDesigner_suggest_behaviour :
    (∀ d : MyDesigner, d.suggest none = .ok []) ∧
    (∀ (d : MyDesigner) (n : Int), d.completed_trials = [] → d.active_trials = [] →
      d.suggest (some n) = .error (.valueError "max() arg is an empty sequence")) ∧
    (∀ ps : PolicySupporter, ps.completed = [] → ps.active = [] →
      get_next_index ps = 0) ∧
    (∀ (d : MyDesigner) (n : Int) (current_index : Int),
      ((d.completed_trials ++ d.active_trials).map Trial.id).max? = some current_index →
      (∀ c ∈ d.study_config.search_space.parameters,
        c.type = ParameterType.CATEGORICAL) →
      (∀ c ∈ d.study_config.search_space.parameters, c.feasible_values ≠ []) →
      ∃ l, d.suggest (some n) = .ok l ∧ l.length = n.toNat ∧
        List.Forall₂
          (fun i pd =>
            make_parameters d.study_config.search_space (current_index + i) = .ok pd)
          (pyRange n) l) := by
  refine ⟨fun d => rfl, ?_, ?_, ?_⟩
  · intro d n hcomp hact
    simp [MyDesigner.suggest, hcomp, hact]
  · intro ps hcomp hact
    simp [get_next_index, PolicySupporter.GetTrials, hcomp, hact]
  · intro d n current_index hmax hcat hne
    have hok : ∀ i ∈ pyRange n,
        ∃ pd, make_parameters d.study_config.search_space (current_index + i) = .ok pd :=
      fun i _ =>
        make_parameters_loop_isOk (current_index + i)
          d.study_config.search_space.parameters PyDict.empty hcat hne
    obtain ⟨l, hl, hall⟩ := listComp_ok _ (pyRange n) hok
    refine ⟨l, ?_, ?_, hall⟩
    · have hmax' := hmax
      rw [List.map_append] at hmax'
      simp [MyDesigner.suggest, hmax, hmax', hl]
    · rw [← hall.length_eq]
      simp [pyRange]

/-- C9 witness: a designer with trials 1 and 3 recorded and a two-category
parameter, asked for two suggestions. -/
theorem MyDesigner_suggest_behaviour_witness :
    (((MyDesigner.mk ⟨⟨[⟨"x", .CATEGORICAL, ["a", "b"]⟩]⟩⟩ [⟨1⟩, ⟨3⟩]
        []).completed_trials ++
      (MyDesigner.mk ⟨⟨[⟨"x", .CATEGORICAL, ["a", "b"]⟩]⟩⟩ [⟨1⟩, ⟨3⟩]
        []).active_trials).map Trial.id).max? = some 3 ∧
    (∀ c ∈ (MyDesigner.mk ⟨⟨[⟨"x", .CATEGORICAL, ["a", "b"]⟩]⟩⟩ [⟨1⟩, ⟨3⟩]
        []).study_config.search_space.parameters,
      c.type = ParameterType.CATEGORICAL) ∧
    (∀ c ∈ (MyDesigner.mk ⟨⟨[⟨"x", .CATEGORICAL, ["a", "b"]⟩]⟩⟩ [⟨1⟩, ⟨3⟩]
        []).study_config.search_space.parameters, c.feasible_values ≠ []) ∧
    (∃ l, (MyDesigner.mk ⟨⟨[⟨"x", .CATEGORICAL, ["a", "b"]⟩]⟩⟩ [⟨1⟩, ⟨3⟩]
        []).suggest (some 2) = .ok l ∧ l.length = (2 : Int).toNat ∧
      List.Forall₂
        (fun i pd =>
          make_parameters (MyDesigner.mk ⟨⟨[⟨"x", .CATEGORICAL, ["a", "b"]⟩]⟩⟩
            [⟨1⟩, ⟨3⟩] []).study_config.search_space (3 + i) = .ok pd)
        (pyRange 2) l) :=
  ⟨by decide, by decide, by decide,
    MyDesigner_suggest_behaviour.2.2.2
      (MyDesigner.mk ⟨⟨[⟨"x", .CATEGORICAL, ["a", "b"]⟩]⟩⟩ [⟨1⟩, ⟨3⟩] []) 2 3
      (by decide) (by decide) (by decide)⟩

/-- C9 counterexample: with a trial recorded, suggest(n) need not return
exactly n suggestions — a non-CATEGORICAL parameter makes it raise, and a
negative n yields the empty list. -/
theorem MyDesigner_suggest_counterexample :
    (MyDesigner.mk ⟨⟨[⟨"x", .DOUBLE, []⟩]⟩⟩ [⟨1⟩] []).suggest (some 1) =
      .error (.valueError "This function only supports CATEGORICAL parameters.") ∧
    (MyDesigner.mk ⟨⟨[⟨"x", .CATEGORICAL, ["a"]⟩]⟩⟩ [⟨1⟩] []).suggest (some (-1)) =
      .ok [] := by
  exact ⟨by decide, by decide⟩

/-- The suggest loop of MyPolicy appends one identical suggestion per
iteration when make_parameters succeeds at the (unchanging) next index. -/
theorem MyPolicy_suggestLoop_replicate (p : MyPolicy) (request : SuggestRequest)
    (pd : ParameterDict)
    (h : make_parameters request.study_config.search_space
      (get_next_index p.policy_supporter) = .ok pd) :
    ∀ (n : Nat) (acc : List TrialSuggestion),
      MyPolicy.suggestLoop p request n acc =
        .ok (acc ++ List.replicate n ⟨pd⟩) := by
  intro n
  induction n with
  | zero => intro acc; simp [MyPolicy.suggestLoop]
  | succ k ih =>
    intro acc
    rw [MyPolicy.suggestLoop]
    simp only [h, ih (acc ++ [⟨pd⟩]), List.replicate_succ]
    simp [List.append_assoc]

/-- C10 (amended): with the supporter's trial data fixed for the call and
make_parameters succeeding on the request's search space at the index that
get_next_index computes from that data, MyPolicy.suggest returns a decision
with exactly request.count suggestions, all carrying identical parameters
(get_next_index is re-evaluated against the same unchanged supporter in
every loop iteration and yields the same index each time). -/
theorem MyPolicy_suggest_replicates (p : MyPolicy) (request : SuggestRequest)
    (pd : ParameterDict)
    (h : make_parameters request.study_config.search_space
      (get_next_index p.policy_supporter) = .ok pd) :
    ∃ dec, p.suggest request = .ok dec ∧
      dec.suggestions.length = request.count ∧
      ∀ t ∈ dec.suggestions, t = ⟨pd⟩ := by
  refine ⟨⟨List.replicate request.count ⟨pd⟩, ⟨⟩⟩, ?_, by simp, ?_⟩
  · simp [MyPolicy.suggest, MyPolicy_suggestLoop_replicate p request pd h]
  · intro t ht
    exact List.eq_of_mem_replicate (by simpa using ht)

/-- C10 witness: supporter with max trial id 2 and a three-category
parameter; both returned suggestions are the category at index 2. -/
theorem MyPolicy_suggest_replicates_witness :
    make_parameters
        (SuggestRequest.mk 2 ⟨⟨[⟨"x", .CATEGORICAL, ["a", "b", "c"]⟩]⟩⟩).study_config.search_space
        (get_next_index (MyPolicy.mk ⟨[⟨2⟩], []⟩).policy_supporter) =
      .ok [("x", ⟨"c"⟩)] ∧
    (∃ dec, (MyPolicy.mk ⟨[⟨2⟩], []⟩).suggest
        (SuggestRequest.mk 2 ⟨⟨[⟨"x", .CATEGORICAL, ["a", "b", "c"]⟩]⟩⟩) = .ok dec ∧
      dec.suggestions.length =
        (SuggestRequest.mk 2 ⟨⟨[⟨"x", .CATEGORICAL, ["a", "b", "c"]⟩]⟩⟩).count ∧
      ∀ t ∈ dec.suggestions, t = ⟨[("x", ⟨"c"⟩)]⟩) :=
  ⟨by decide,
    MyPolicy_suggest_replicates (MyPolicy.mk ⟨[⟨2⟩], []⟩)
      (SuggestRequest.mk 2 ⟨⟨[⟨"x", .CATEGORICAL, ["a", "b", "c"]⟩]⟩⟩)
      [("x", ⟨"c"⟩)] (by decide)⟩

/-- C10 counterexample: a request for one suggestion over a search space
with a non-CATEGORICAL parameter makes MyPolicy.suggest raise instead of
returning a decision with one suggestion, with the supporter unchanged
throughout. -/
theorem MyPolicy_suggest_counterexample :
    (MyPolicy.mk ⟨[], []⟩).suggest ⟨1, ⟨⟨[⟨"x", .DOUBLE, []⟩]⟩⟩⟩ =
      .error (.valueError "This function only supports CATEGORICAL parameters.") := by
  decide

set_option maxRecDepth 40000 in
/-- C8: the Dockerfile builds FROM a Python 3.11 slim base image, its apt
RUN installs build-essential and wget, it copies the repository tree into
the image, its pip RUN installs requirements.txt, requirements-jax.txt and
google-vizier with the jax extra, and the final instruction before the
image is finalized runs ./build_protos.sh. -/
theorem dockerfile_build_steps :
    dockerfile.head? = some (.FROM "python:3.11.4-slim") ∧
    "python:3.11".data <+: "python:3.11.4-slim".data ∧
    "-slim".data <:+ "python:3.11.4-slim".data ∧
    (∃ i ∈ dockerfile, i.runMentions "apt-get install" ∧
      i.runMentions "build-essential" ∧ i.runMentions "wget") ∧
    DockerInstruction.COPY "./" "." ∈ dockerfile ∧
    (∃ i ∈ dockerfile, i.runMentions "pip3 install" ∧
      i.runMentions "requirements.txt" ∧ i.runMentions "requirements-jax.txt" ∧
      i.runMentions "google-vizier[jax]") ∧
    dockerfile.getLast? = some (.RUN "./build_protos.sh") := by
  refine ⟨rfl, by decide, by decide, ?_, by decide, ?_, rfl⟩
  · exact ⟨dockerfile[1], by decide, by decide, by decide, by decide⟩
  · exact ⟨dockerfile[3], by decide, by decide, by decide, by decide, by decide⟩

end Vizier
